import Mathlib

/-!
Shallow embedding of `spacenav-plus` (src/src/lib.rs): the event codec
(`TryFrom<spnav_event> for Event` and the `From` impls for the payloads),
the wait/poll wrappers in `mod lib`, and the reference-counted shared
connection registry (`CONN_COUNT`, `Connection::new`, `impl Drop for
Connection`).

External libspnav calls are modelled by passing their observed return
values (and, for wait/poll, the raw record the C call wrote) as explicit
arguments; the Rust wrappers test those returns against `-1` / `0` exactly
as the source does.  `i32` fields are only copied or compared, never
subjected to overflowing arithmetic, so they are embedded as `Int`;
`CONN_COUNT : usize` is embedded as `Nat`.
-/

namespace SpacenavPlus

/-- Tag constant `SPNAV_EVENT_ANY = 0` from lib.rs. -/
def SPNAV_EVENT_ANY : Int := 0

/-- Tag constant `SPNAV_EVENT_MOTION = 1` from lib.rs. -/
def SPNAV_EVENT_MOTION : Int := 1

/-- Tag constant `SPNAV_EVENT_BUTTON = 2` from lib.rs. -/
def SPNAV_EVENT_BUTTON : Int := 2

/-- Rust `enum EventType { Any, Motion, Button }`. -/
inductive EventType
  | Any
  | Motion
  | Button
deriving Repr, DecidableEq

/-- Embedding of `impl Into<i32> for EventType`. -/
def EventType.toInt : EventType → Int
  | .Any => SPNAV_EVENT_ANY
  | .Motion => SPNAV_EVENT_MOTION
  | .Button => SPNAV_EVENT_BUTTON

/-- Raw motion payload `libspnav::spnav_event_motion`: six `i32` axes, a
`u32` period and the auxiliary `data` array (which the codec never reads). -/
structure spnav_event_motion where
  x : Int
  y : Int
  z : Int
  rx : Int
  ry : Int
  rz : Int
  period : Nat
  data : List Int
deriving Repr, DecidableEq

/-- Raw button payload `libspnav::spnav_event_button`. -/
structure spnav_event_button where
  press : Int
  bnum : Int
deriving Repr, DecidableEq

/-- Raw tagged record `libspnav::spnav_event`.  In C it is a union headed by
the tag `type_`; the Rust code reads `motion` only when `type_` is the motion
tag and `button` only when it is the button tag, so carrying both payload
views alongside the tag is a faithful picture of every defined read. -/
structure spnav_event where
  type_ : Int
  motion : spnav_event_motion
  button : spnav_event_button
deriving Repr, DecidableEq

/-- Rust `pub struct MotionEvent` — note: no `data` field (lib.rs drops it). -/
structure MotionEvent where
  x : Int
  y : Int
  z : Int
  rx : Int
  ry : Int
  rz : Int
  period : Nat
deriving Repr, DecidableEq

/-- Accessor `MotionEvent::t` — convenience accessor returning x, y, z translation. -/
def MotionEvent.t (e : MotionEvent) : Int × Int × Int := (e.x, e.y, e.z)

/-- Accessor `MotionEvent::r` — convenience accessor returning rx, ry, rz rotation. -/
def MotionEvent.r (e : MotionEvent) : Int × Int × Int := (e.rx, e.ry, e.rz)

/-- Embedding of `impl From<libspnav::spnav_event_motion> for MotionEvent`. -/
def MotionEvent.fromRaw (event : spnav_event_motion) : MotionEvent :=
  { x := event.x
    y := event.y
    z := event.z
    rx := event.rx
    ry := event.ry
    rz := event.rz
    period := event.period }

/-- Rust `pub struct ButtonEvent`. -/
structure ButtonEvent where
  press : Bool
  bnum : Int
deriving Repr, DecidableEq

/-- Embedding of `impl From<libspnav::spnav_event_button> for ButtonEvent`:
`press: event.press != 0`. -/
def ButtonEvent.fromRaw (event : spnav_event_button) : ButtonEvent :=
  { press := event.press != 0
    bnum := event.bnum }

/-- Rust `pub enum Event { Motion(MotionEvent), Button(ButtonEvent) }`. -/
inductive Event
  | Motion (e : MotionEvent)
  | Button (e : ButtonEvent)
deriving Repr, DecidableEq

/-- Embedding of `impl TryFrom<libspnav::spnav_event> for Event`: match on the tag,
decode the matching payload, `Err(())` on any other tag. -/
def Event.tryFrom (event : spnav_event) : Except Unit Event :=
  if event.type_ = SPNAV_EVENT_MOTION then
    .ok (.Motion (MotionEvent.fromRaw event.motion))
  else if event.type_ = SPNAV_EVENT_BUTTON then
    .ok (.Button (ButtonEvent.fromRaw event.button))
  else
    .error ()

namespace lib

/-- Wrapper `lib::spnav_open`: `ret` is the return of the C call
`libspnav::spnav_open()`; `-1` means failure. -/
def spnav_open (ret : Int) : Except Unit Unit :=
  if ret = -1 then .error () else .ok ()

/-- Wrapper `lib::spnav_close`: `ret` is the return of `libspnav::spnav_close()`. -/
def spnav_close (ret : Int) : Except Unit Unit :=
  if ret = -1 then .error () else .ok ()

/-- Wrapper `lib::spnav_fd`: `fd` is the return of `libspnav::spnav_fd()`. -/
def spnav_fd (fd : Int) : Except Unit Int :=
  if fd = -1 then .error () else .ok fd

/-- Wrapper `lib::spnav_wait_event`: `t` is the return of the C call
`libspnav::spnav_wait_event(&mut event)` and `event` is the record it left
behind (the Rust code initialises the tag to `SPNAV_EVENT_ANY` before the
call; whatever the C side wrote is what `event` holds afterwards).
`t == 0` is a transport failure; otherwise the record is decoded. -/
def spnav_wait_event (t : Int) (event : spnav_event) : Except Unit Event :=
  if t = 0 then .error () else Event.tryFrom event

/-- Wrapper `lib::spnav_poll_event`: `t == 0` means nothing pending (`None`);
otherwise the record is decoded and a decode failure is discarded via
`.ok()`. -/
def spnav_poll_event (t : Int) (event : spnav_event) : Option Event :=
  if t = 0 then none else (Event.tryFrom event).toOption

end lib

/-- The shared registry state: `CONN_COUNT` (the `Mutex<usize>` counter) and
the open flag of the physical daemon session.  `live` is ghost state counting the
`Connection` values that have been constructed and not yet dropped; it is
needed to express that `Drop` only ever runs on an existing `Connection`. -/
structure RegState where
  count : Nat
  sessionOpen : Bool
  live : Nat
deriving Repr, DecidableEq

/-- The state at process start: `CONN_COUNT = 0`, no session, no handles. -/
def regInit : RegState := { count := 0, sessionOpen := false, live := 0 }

/-- Return values of the external libspnav calls one `Connection::new` may
make: the return of `libspnav::spnav_open()` and of `libspnav::spnav_fd()`
(each call treats `-1` as failure). -/
structure NewCalls where
  openRet : Int
  fdRet : Int
deriving Repr, DecidableEq

/-- Result of one `Connection::new` call: the registry state after it, a
flag recording whether `lib::spnav_open` was invoked, and the returned
`Result<Connection, ()>` (with the `Connection` represented by its `fd`). -/
structure NewResult where
  state : RegState
  openCalled : Bool
  result : Except Unit Int
deriving Repr

/-- Embedding of `Connection::new` (lib.rs lines 112-126), step by step in source order.
The whole body runs under the `CONN_COUNT` mutex, so it is one atomic step.
If `*count > 0`: `*count += 1` and then `fd: lib::spnav_fd()?`.
Otherwise: `*count = 1`, then `lib::spnav_open()?` (note: the count is
written BEFORE the open is attempted), then `fd: lib::spnav_fd()?`. -/
def Connection.new (c : NewCalls) (s : RegState) : NewResult :=
  if s.count > 0 then
    let s1 : RegState := { s with count := s.count + 1 }
    match lib.spnav_fd c.fdRet with
    | .error _ => { state := s1, openCalled := false, result := .error () }
    | .ok fd =>
        { state := { s1 with live := s1.live + 1 }
          openCalled := false
          result := .ok fd }
  else
    let s1 : RegState := { s with count := 1 }
    match lib.spnav_open c.openRet with
    | .error _ => { state := s1, openCalled := true, result := .error () }
    | .ok _ =>
        let s2 : RegState := { s1 with sessionOpen := true }
        match lib.spnav_fd c.fdRet with
        | .error _ => { state := s2, openCalled := true, result := .error () }
        | .ok fd =>
            { state := { s2 with live := s2.live + 1 }
              openCalled := true
              result := .ok fd }

/-- How one `Drop` run ends: a normal return, or the `.expect("to close")`
panic when `lib::spnav_close` fails. -/
inductive DropOutcome
  | returned
  | panicked
deriving Repr, DecidableEq

/-- Result of one `Connection` drop: the registry state after it, whether
`lib::spnav_close` was invoked, and how the destructor ended. -/
structure DropResult where
  state : RegState
  closeCalled : Bool
  outcome : DropOutcome
deriving Repr, DecidableEq

/-- Embedding of `impl Drop for Connection` (lib.rs lines 135-145), under the mutex:
if `*count == 1` then `*count = 0; lib::spnav_close().expect("to close")`
(a close failure panics), else `*count -= 1` with no close.  `closeRet` is
the return of `libspnav::spnav_close()` when it is called.  On a failed
close the physical session is in an unknown state, so `sessionOpen` is left
unchanged there (the panic aborts the destructor anyway). -/
def Connection.drop (closeRet : Int) (s : RegState) : DropResult :=
  if s.count = 1 then
    match lib.spnav_close closeRet with
    | .error _ =>
        { state := { s with count := 0, live := s.live - 1 }
          closeCalled := true
          outcome := .panicked }
    | .ok _ =>
        { state := { s with count := 0, live := s.live - 1, sessionOpen := false }
          closeCalled := true
          outcome := .returned }
  else
    { state := { s with count := s.count - 1, live := s.live - 1 }
      closeCalled := false
      outcome := .returned }

/-- One atomic registry transition: either some thread runs
`Connection::new` (with some outcomes `c` of the external calls), or some
thread drops one of the live `Connection` values (so `0 < live` is
required).  Each constructor/destructor body holds the `CONN_COUNT` mutex
throughout, which is what makes these the atomic steps of the system. -/
inductive Step : RegState → RegState → Prop
  | new (c : NewCalls) (s : RegState) : Step s (Connection.new c s).state
  | drop (closeRet : Int) (s : RegState) (h : 0 < s.live) :
      Step s (Connection.drop closeRet s).state

/-- A registry operation, for replaying whole traces while counting the
physical open/close calls. -/
inductive Op
  | new (c : NewCalls)
  | drop (closeRet : Int)
deriving Repr, DecidableEq

/-- Run one operation: new state, number of `spnav_open` calls made (0 or
1), number of `spnav_close` calls made (0 or 1). -/
def runOp (op : Op) (s : RegState) : RegState × Nat × Nat :=
  match op with
  | .new c =>
      let r := Connection.new c s
      (r.state, if r.openCalled then 1 else 0, 0)
  | .drop closeRet =>
      let r := Connection.drop closeRet s
      (r.state, 0, if r.closeCalled then 1 else 0)

/-- Run a sequence of operations, accumulating the open/close call counts. -/
def runOps : List Op → RegState → RegState × Nat × Nat
  | [], s => (s, 0, 0)
  | op :: ops, s =>
      let r1 := runOp op s
      let r2 := runOps ops r1.1
      (r2.1, r1.2.1 + r2.2.1, r1.2.2 + r2.2.2)

/-- Predicate stating that the registry count strictly exceeds the number of
live handles: at least one `Connection::new` count increment has leaked
without a `Connection` value whose drop could ever undo it. -/
def LeakInv (s : RegState) : Prop := s.live + 1 ≤ s.count

/-- C7: for every `MotionEvent` constructed from arbitrary integer fields
(negative and zero included), the accessor `t` returns exactly the triple
`(x, y, z)` and `r` returns exactly `(rx, ry, rz)`; both are pure
projections of the constructed value. -/
theorem C7_accessors_project (x y z rx ry rz : Int) (period : Nat) :
    (MotionEvent.mk x y z rx ry rz period).t = (x, y, z) ∧
    (MotionEvent.mk x y z rx ry rz period).r = (rx, ry, rz) :=
  ⟨rfl, rfl⟩

/-- C4: every raw record tagged `SPNAV_EVENT_MOTION` decodes to
`Event.Motion` whose seven fields are exactly the corresponding fields of
the raw motion payload, and the decode result does not depend on the raw
auxiliary `data` field (which `MotionEvent` cannot even represent). -/
theorem C4_motion_decodes_exactly (event : spnav_event)
    (h : event.type_ = SPNAV_EVENT_MOTION) :
    Event.tryFrom event =
      .ok (.Motion
        { x := event.motion.x, y := event.motion.y, z := event.motion.z
          rx := event.motion.rx, ry := event.motion.ry, rz := event.motion.rz
          period := event.motion.period }) ∧
    ∀ d : List Int,
      Event.tryFrom { event with motion := { event.motion with data := d } } =
        Event.tryFrom event := by
  constructor
  · simp [Event.tryFrom, h, MotionEvent.fromRaw]
  · intro d
    simp [Event.tryFrom, h, MotionEvent.fromRaw]

/-- Witness for C4 at a concrete motion record (tag 1); the auxiliary
`data` entries do not show up in the decoded event. -/
theorem C4_motion_decodes_exactly_witness :
    Event.tryFrom
        { type_ := 1
          motion := { x := 3, y := -4, z := 0, rx := 7, ry := -8, rz := 9
                      period := 16, data := [11, 12, 13, 14, 15, 16] }
          button := { press := 0, bnum := 0 } } =
      .ok (.Motion { x := 3, y := -4, z := 0, rx := 7, ry := -8, rz := 9, period := 16 }) :=
  (C4_motion_decodes_exactly
    { type_ := 1
      motion := { x := 3, y := -4, z := 0, rx := 7, ry := -8, rz := 9
                  period := 16, data := [11, 12, 13, 14, 15, 16] }
      button := { press := 0, bnum := 0 } } rfl).1

/-- C5: every raw record tagged `SPNAV_EVENT_BUTTON` decodes to
`Event.Button` whose `press` field is `true` exactly when the raw `press`
field is non-zero, and whose `bnum` equals the raw button index. -/
theorem C5_button_decodes_exactly (event : spnav_event)
    (h : event.type_ = SPNAV_EVENT_BUTTON) :
    Event.tryFrom event = .ok (.Button (ButtonEvent.fromRaw event.button)) ∧
    ((ButtonEvent.fromRaw event.button).press = true ↔ event.button.press ≠ 0) ∧
    (ButtonEvent.fromRaw event.button).bnum = event.button.bnum := by
  refine ⟨?_, ?_, rfl⟩
  · simp [Event.tryFrom, h, SPNAV_EVENT_MOTION, SPNAV_EVENT_BUTTON]
  · simp [ButtonEvent.fromRaw]

/-- Witness for C5 at a concrete button record (tag 2, raw press 5). -/
theorem C5_button_decodes_exactly_witness :
    Event.tryFrom
        { type_ := 2
          motion := { x := 0, y := 0, z := 0, rx := 0, ry := 0, rz := 0
                      period := 0, data := [] }
          button := { press := 5, bnum := 2 } } =
      .ok (.Button (ButtonEvent.fromRaw { press := 5, bnum := 2 })) ∧
    ((ButtonEvent.fromRaw { press := 5, bnum := 2 }).press = true ↔ (5 : Int) ≠ 0) ∧
    (ButtonEvent.fromRaw { press := 5, bnum := 2 }).bnum = 2 :=
  C5_button_decodes_exactly
    { type_ := 2
      motion := { x := 0, y := 0, z := 0, rx := 0, ry := 0, rz := 0
                  period := 0, data := [] }
      button := { press := 5, bnum := 2 } } rfl

/-- C3: a raw record whose tag is neither `SPNAV_EVENT_MOTION` nor
`SPNAV_EVENT_BUTTON` (the `SPNAV_EVENT_ANY` sentinel 0 included) is a
decode failure — no `Event` variant is produced; when the transport call
itself succeeded (`t ≠ 0`), `lib::spnav_wait_event` surfaces this as an
error result while `lib::spnav_poll_event` surfaces it as `none`
(nothing pending), not as a failure. -/
theorem C3_unknown_tag_rejected (t : Int) (event : spnav_event)
    (hm : event.type_ ≠ SPNAV_EVENT_MOTION) (hb : event.type_ ≠ SPNAV_EVENT_BUTTON)
    (ht : t ≠ 0) :
    Event.tryFrom event = .error () ∧
    lib.spnav_wait_event t event = .error () ∧
    lib.spnav_poll_event t event = none := by
  have hd : Event.tryFrom event = .error () := by
    simp [Event.tryFrom, hm, hb]
  refine ⟨hd, ?_, ?_⟩
  · simp [lib.spnav_wait_event, ht, hd]
  · simp [lib.spnav_poll_event, ht, hd, Except.toOption]

/-- Witness for C3 at the `SPNAV_EVENT_ANY` sentinel tag 0 with a
successful transport return `t = 1`. -/
theorem C3_unknown_tag_rejected_witness :
    Event.tryFrom
        { type_ := 0
          motion := { x := 1, y := 2, z := 3, rx := 4, ry := 5, rz := 6
                      period := 7, data := [] }
          button := { press := 1, bnum := 0 } } =
      .error () ∧
    lib.spnav_wait_event 1
        { type_ := 0
          motion := { x := 1, y := 2, z := 3, rx := 4, ry := 5, rz := 6
                      period := 7, data := [] }
          button := { press := 1, bnum := 0 } } =
      .error () ∧
    lib.spnav_poll_event 1
        { type_ := 0
          motion := { x := 1, y := 2, z := 3, rx := 4, ry := 5, rz := 6
                      period := 7, data := [] }
          button := { press := 1, bnum := 0 } } =
      none :=
  C3_unknown_tag_rejected 1
    { type_ := 0
      motion := { x := 1, y := 2, z := 3, rx := 4, ry := 5, rz := 6
                  period := 7, data := [] }
      button := { press := 1, bnum := 0 } }
    (by decide) (by decide) (by decide)

/-- C1: REFUTED by the code.  `Connection::new` writes `*count = 1` before
attempting `lib::spnav_open()?`, so when the physical open fails from a
fresh registry the count is left at 1 (not 0), the call returns `Err`, and
a second `Connection::new` takes the `*count > 0` branch: it does NOT
perform the physical open again (`openCalled = false`), treating the
session as already open. -/
theorem C1_failed_open_leaves_count_incremented :
    (Connection.new { openRet := -1, fdRet := 3 } regInit).result = .error () ∧
    (Connection.new { openRet := -1, fdRet := 3 } regInit).state.count = 1 ∧
    (Connection.new { openRet := 7, fdRet := 3 }
        (Connection.new { openRet := -1, fdRet := 3 } regInit).state).openCalled = false :=
  ⟨rfl, rfl, rfl⟩

/-- C2: REFUTED by the code.  The state reached from `regInit` by one
`Connection::new` step whose `spnav_open` call fails has `count = 1` with
the physical session still closed, so the invariant "session open iff
count > 0" does not hold in every reachable state. -/
theorem C2_invariant_fails_on_reachable_state :
    ∃ s : RegState, Relation.ReflTransGen Step regInit s ∧
      0 < s.count ∧ s.sessionOpen = false :=
  ⟨(Connection.new { openRet := -1, fdRet := 3 } regInit).state,
   Relation.ReflTransGen.single (Step.new { openRet := -1, fdRet := 3 } regInit),
   by decide, by decide⟩

/-- C6: from a registry state with `count = 2`, one drop lowers the count
to 1 without calling `lib::spnav_close`, and a second drop lowers it to 0
and calls `lib::spnav_close` exactly then — whatever value the close call
returns. -/
theorem C6_two_releases_from_count_two (s : RegState) (h : s.count = 2) (r1 r2 : Int) :
    (Connection.drop r1 s).closeCalled = false ∧
    (Connection.drop r1 s).state.count = 1 ∧
    (Connection.drop r2 (Connection.drop r1 s).state).closeCalled = true ∧
    (Connection.drop r2 (Connection.drop r1 s).state).state.count = 0 := by
  have hne : ¬ s.count = 1 := by omega
  have h1 : Connection.drop r1 s =
      { state := { s with count := s.count - 1, live := s.live - 1 }
        closeCalled := false
        outcome := .returned } := by
    simp [Connection.drop, hne]
  have hc1 : (Connection.drop r1 s).state.count = 1 := by
    rw [h1]
    simp [h]
  have h2 : ∀ s' : RegState, s'.count = 1 →
      (Connection.drop r2 s').closeCalled = true ∧
      (Connection.drop r2 s').state.count = 0 := by
    intro s' hs'
    rcases hcl : lib.spnav_close r2 with e | u <;> simp [Connection.drop, hs', hcl]
  exact ⟨by rw [h1], hc1, (h2 _ hc1).1, (h2 _ hc1).2⟩

/-- Witness for C6 from the concrete state with two live handles. -/
theorem C6_two_releases_from_count_two_witness :
    (Connection.drop 0 { count := 2, sessionOpen := true, live := 2 }).closeCalled = false ∧
    (Connection.drop 0 { count := 2, sessionOpen := true, live := 2 }).state.count = 1 ∧
    (Connection.drop 0 (Connection.drop 0
        { count := 2, sessionOpen := true, live := 2 }).state).closeCalled = true ∧
    (Connection.drop 0 (Connection.drop 0
        { count := 2, sessionOpen := true, live := 2 }).state).state.count = 0 :=
  C6_two_releases_from_count_two { count := 2, sessionOpen := true, live := 2 } rfl 0 0

/-- C8: when the last drop (`count = 1`) calls `lib::spnav_close` and the
close fails, the destructor ends in the `.expect("to close")` panic — a
loud, unrecoverable condition — and never in a silent normal return. -/
theorem C8_close_failure_panics (s : RegState) (h : s.count = 1) (r : Int)
    (hr : lib.spnav_close r = .error ()) :
    (Connection.drop r s).closeCalled = true ∧
    (Connection.drop r s).outcome = .panicked ∧
    (Connection.drop r s).outcome ≠ .returned := by
  simp [Connection.drop, h, hr]

/-- Witness for C8: the close call returns -1 on the last drop. -/
theorem C8_close_failure_panics_witness :
    (Connection.drop (-1) { count := 1, sessionOpen := true, live := 1 }).closeCalled = true ∧
    (Connection.drop (-1) { count := 1, sessionOpen := true, live := 1 }).outcome = .panicked ∧
    (Connection.drop (-1) { count := 1, sessionOpen := true, live := 1 }).outcome ≠ .returned :=
  C8_close_failure_panics { count := 1, sessionOpen := true, live := 1 } rfl (-1) rfl

/-- Helper: the one-step unfolding of `runOps` on a cons cell. -/
theorem runOps_cons (op : Op) (ops : List Op) (s : RegState) :
    runOps (op :: ops) s =
      ((runOps ops (runOp op s).1).1,
       (runOp op s).2.1 + (runOps ops (runOp op s).1).2.1,
       (runOp op s).2.2 + (runOps ops (runOp op s).1).2.2) := rfl

/-- Helper: running an appended operation list is running the two parts in
sequence, with the open/close call counts added. -/
theorem runOps_append (l1 l2 : List Op) (s : RegState) :
    runOps (l1 ++ l2) s =
      ((runOps l2 (runOps l1 s).1).1,
       (runOps l1 s).2.1 + (runOps l2 (runOps l1 s).1).2.1,
       (runOps l1 s).2.2 + (runOps l2 (runOps l1 s).1).2.2) := by
  induction l1 generalizing s with
  | nil => simp [runOps]
  | cons op ops ih => simp [runOps, ih, Nat.add_assoc]

/-- Helper: with the count already positive and a succeeding fd call, a run
of `k` `Connection::new` operations adds `k` to the count and to the live
handles, and makes no open and no close call. -/
theorem runOps_replicate_new (c : NewCalls) (hf : c.fdRet ≠ -1) (k : Nat) :
    ∀ s : RegState, 0 < s.count →
      runOps (List.replicate k (Op.new c)) s =
        ({ s with count := s.count + k, live := s.live + k }, 0, 0) := by
  induction k with
  | zero =>
      intro s hs
      simp [runOps]
  | succ k ih =>
      intro s hs
      have hstep : runOp (Op.new c) s =
          ({ s with count := s.count + 1, live := s.live + 1 }, 0, 0) := by
        simp [runOp, Connection.new, hs, lib.spnav_fd, hf]
      have hcount : ({ s with count := s.count + 1, live := s.live + 1 } : RegState).count > 0 := by
        simp
      rw [List.replicate_succ, runOps_cons, hstep]
      simp only [ih _ hcount]
      simp only [Prod.mk.injEq, RegState.mk.injEq, eq_self_iff_true, Nat.zero_add,
        Nat.add_zero, and_true, true_and]
      omega

/-- Helper: with `count = k + 1` and a succeeding close call, a run of
`k + 1` drop operations makes no open call and exactly one close call (on
the last drop), ending with `count = 0` and the session closed. -/
theorem runOps_replicate_drop (r : Int) (hr : r ≠ -1) (k : Nat) :
    ∀ s : RegState, s.count = k + 1 →
      runOps (List.replicate (k + 1) (Op.drop r)) s =
        ({ count := 0, sessionOpen := false, live := s.live - (k + 1) }, 0, 1) := by
  induction k with
  | zero =>
      intro s hs
      simp only [Nat.zero_add] at hs
      simp [runOps, runOp, Connection.drop, hs, lib.spnav_close, hr]
  | succ k ih =>
      intro s hs
      have hne : ¬ s.count = 1 := by omega
      have hstep : runOp (Op.drop r) s =
          ({ s with count := s.count - 1, live := s.live - 1 }, 0, 0) := by
        simp [runOp, Connection.drop, hne]
      have hcount : ({ s with count := s.count - 1, live := s.live - 1 } : RegState).count = k + 1 := by
        simp
        omega
      rw [List.replicate_succ, runOps_cons, hstep]
      simp only [ih _ hcount]
      simp only [Prod.mk.injEq, RegState.mk.injEq, eq_self_iff_true, Nat.zero_add,
        Nat.add_zero, and_true, true_and]
      omega

/-- C9: for every `N ≥ 1`, running `N` `Connection::new` operations
followed by `N` drops from the initial registry state — with the external
open, fd and close calls all succeeding — makes exactly one physical open
call and exactly one physical close call.  Every constructor/destructor
body holds the `CONN_COUNT` mutex for its whole critical section, so each
is one atomic step and every concurrent interleaving of the `N`
constructions (and of the `N` destructions) executes as exactly this
operation sequence: no two acquisitions both decide to open, no two
releases both decide to close. -/
theorem C9_session_opened_and_closed_once (N : Nat) (hN : 1 ≤ N) (c : NewCalls)
    (ho : c.openRet ≠ -1) (hf : c.fdRet ≠ -1) (r : Int) (hr : r ≠ -1) :
    (runOps (List.replicate N (Op.new c) ++ List.replicate N (Op.drop r)) regInit).2.1 = 1 ∧
    (runOps (List.replicate N (Op.new c) ++ List.replicate N (Op.drop r)) regInit).2.2 = 1 := by
  obtain ⟨m, rfl⟩ : ∃ m, N = m + 1 := ⟨N - 1, by omega⟩
  have hfirst : runOp (Op.new c) regInit =
      ({ count := 1, sessionOpen := true, live := 1 }, 1, 0) := by
    simp [runOp, Connection.new, regInit, lib.spnav_open, ho, lib.spnav_fd, hf]
  have hnews : runOps (List.replicate (m + 1) (Op.new c)) regInit =
      ({ count := 1 + m, sessionOpen := true, live := 1 + m }, 1, 0) := by
    rw [List.replicate_succ, runOps_cons, hfirst]
    simp only [runOps_replicate_new c hf m { count := 1, sessionOpen := true, live := 1 }
      (by decide)]
  have hdrops := runOps_replicate_drop r hr m
      { count := 1 + m, sessionOpen := true, live := 1 + m } (by simp; omega)
  rw [runOps_append, hnews]
  simp [hdrops]

/-- Witness for C9 at `N = 3` with succeeding external calls. -/
theorem C9_session_opened_and_closed_once_witness :
    (runOps (List.replicate 3 (Op.new { openRet := 4, fdRet := 5 }) ++
        List.replicate 3 (Op.drop 0)) regInit).2.1 = 1 ∧
    (runOps (List.replicate 3 (Op.new { openRet := 4, fdRet := 5 }) ++
        List.replicate 3 (Op.drop 0)) regInit).2.2 = 1 :=
  C9_session_opened_and_closed_once 3 (by decide) { openRet := 4, fdRet := 5 }
    (by decide) (by decide) 0 (by decide)

/-- Helper: every atomic registry step preserves `LeakInv`. -/
theorem leakInv_step {s s' : RegState} (hstep : Step s s') (hs : LeakInv s) :
    LeakInv s' := by
  unfold LeakInv at hs
  cases hstep with
  | new c =>
      have hc : 0 < s.count := by omega
      by_cases hfd : c.fdRet = -1 <;>
        · simp [LeakInv, Connection.new, hc, lib.spnav_fd, hfd]
          omega
  | drop closeRet hlive =>
      have hne : ¬ s.count = 1 := by omega
      simp [LeakInv, Connection.drop, hne]
      omega

/-- Helper: `LeakInv` holds along every trace once it holds. -/
theorem leakInv_reachable {s s' : RegState}
    (h : Relation.ReflTransGen Step s s') (hs : LeakInv s) : LeakInv s' := by
  induction h with
  | refl => exact hs
  | tail _ hstep ih => exact leakInv_step hstep ih

/-- C10: when `Connection::new` fails at `lib::spnav_fd` after the count
has been incremented (either branch reaches the fd call with the count
already written), it returns `Err` with the count left incremented and no
live handle added; from that state, along every trace of further
`Connection::new` and drop steps, the count never returns to 0 and no drop
of a live handle ever calls `lib::spnav_close` — the physical session is
never closed through handle release. -/
theorem C10_fd_failure_leaks_count (s : RegState) (c : NewCalls)
    (hf : c.fdRet = -1) (hlc : s.live ≤ s.count)
    (hpath : 0 < s.count ∨ c.openRet ≠ -1) :
    (Connection.new c s).result = .error () ∧
    (Connection.new c s).state.count = s.count + 1 ∧
    (Connection.new c s).state.live = s.live ∧
    ∀ s' : RegState, Relation.ReflTransGen Step (Connection.new c s).state s' →
      0 < s'.count ∧
      ∀ rc : Int, 0 < s'.live → (Connection.drop rc s').closeCalled = false := by
  have hbase : (Connection.new c s).result = .error () ∧
      (Connection.new c s).state.count = s.count + 1 ∧
      (Connection.new c s).state.live = s.live := by
    by_cases hc : 0 < s.count
    · simp [Connection.new, hc, lib.spnav_fd, hf]
    · have hz : s.count = 0 := by omega
      rcases hpath with hcc | ho
      · omega
      · simp [Connection.new, hc, hz, lib.spnav_open, ho, lib.spnav_fd, hf]
  have hc1 := hbase.2.1
  have hl1 := hbase.2.2
  have hleak : LeakInv (Connection.new c s).state := by
    unfold LeakInv
    omega
  refine ⟨hbase.1, hc1, hl1, ?_⟩
  intro s' hreach
  have hinv : LeakInv s' := leakInv_reachable hreach hleak
  unfold LeakInv at hinv
  have hcount : 0 < s'.count := by omega
  refine ⟨hcount, ?_⟩
  intro rc hlive
  have hne : ¬ s'.count = 1 := by omega
  simp [Connection.drop, hne]

/-- Witness for C10: from the initial state, the first open succeeds and
the fd retrieval fails; the count is stuck above 0 with no live handle. -/
theorem C10_fd_failure_leaks_count_witness :
    (Connection.new { openRet := 4, fdRet := -1 } regInit).result = .error () ∧
    (Connection.new { openRet := 4, fdRet := -1 } regInit).state.count = regInit.count + 1 ∧
    0 < (Connection.new { openRet := 4, fdRet := -1 } regInit).state.count :=
  ⟨(C10_fd_failure_leaks_count regInit { openRet := 4, fdRet := -1 } rfl (by decide)
      (Or.inr (by decide))).1,
   (C10_fd_failure_leaks_count regInit { openRet := 4, fdRet := -1 } rfl (by decide)
      (Or.inr (by decide))).2.1,
   ((C10_fd_failure_leaks_count regInit { openRet := 4, fdRet := -1 } rfl (by decide)
      (Or.inr (by decide))).2.2.2 _ Relation.ReflTransGen.refl).1⟩

end SpacenavPlus
